import Mathlib

/-!
Shallow embedding of `src/water/capture/mof_integration.py` (MOF water-capture
simulation and site-optimization scoring engine).

Numeric model: the Python code works on IEEE doubles, but every operation the
claims touch is exact rational arithmetic (add, mul, div, min/max, mean), so we
embed values as `ℚ`.  The single place where IEEE semantics matters is the
cost factor `1 / (cost_per_kg / 50)`: with `cost_per_kg = 0`, pandas/numpy
float division of the positive literal 1 by +0.0 silently yields +inf (the
script globally suppresses warnings), so scores live in the type `Flt` which
is `ℚ` extended with a positive infinity.

The Freundlich and Toth isotherms use a real power `P ^ (1/n)`, embedded with
`Real.rpow`; evaluating `1/n` with a zero scalar exponent raises
`ZeroDivisionError` in Python before `np.power` runs, embedded as `none`.
-/

namespace MOF

/-- Langmuir adsorption isotherm, `q = (q_max * K * P) / (1 + K * P)`,
from `MOFAdsorptionSimulator.langmuir_isotherm` (applied element-wise over a
humidity sequence by mapping). -/
def langmuir_isotherm (P q_max K : ℚ) : ℚ :=
  (q_max * K * P) / (1 + K * P)

/-- Freundlich adsorption isotherm, `q = K_f * P^(1/n)`, from
`MOFAdsorptionSimulator.freundlich_isotherm`.  The Python scalar expression
`1/n` raises `ZeroDivisionError` when `n = 0`, before `np.power` is entered;
we embed failure as `none`. -/
noncomputable def freundlich_isotherm (P K_f n : ℝ) : Option ℝ :=
  if n = 0 then none else some (K_f * P ^ (1 / n))

/-- Toth adsorption isotherm, `q = q_max * (b*P) / (1 + (b*P)^t)^(1/t)`, from
`MOFAdsorptionSimulator.toth_isotherm`.  The scalar expression `1/t` raises
`ZeroDivisionError` when `t = 0`; we embed failure as `none`. -/
noncomputable def toth_isotherm (P q_max b t : ℝ) : Option ℝ :=
  if t = 0 then none else some (q_max * (b * P) / (1 + (b * P) ^ t) ^ (1 / t))

/-- The `mof_properties` dict as consulted by `simulate_mof_performance`:
each of the four keys it reads may be absent (`none`). -/
structure MOFPropsInput where
  surface_area_m2g : Option ℚ
  pore_volume_cm3g : Option ℚ
  hydrophilicity : Option ℚ
  max_water_uptake : Option ℚ
deriving DecidableEq

/-- The dict returned by `simulate_mof_performance`. -/
structure IsothermResult where
  humidity : List ℚ
  water_uptake : List ℚ
  daily_yield_L_kg_day : ℚ
  q_max : ℚ
  K : ℚ
  model : String
deriving DecidableEq

/-- Arithmetic mean `np.mean` of a sequence: sum divided by length. -/
def listMean (xs : List ℚ) : ℚ := xs.sum / (xs.length : ℚ)

/-- `MOFAdsorptionSimulator.simulate_mof_performance`.  Extracts the four
material properties with `dict.get` defaults 1000, 0.5, 0.5, 0.3, derives the
Langmuir parameters, maps the Langmuir isotherm over the humidity range, and
multiplies the mean uptake by the fixed 4 cycles per day.  The `temperature_K`
argument (default 298 at the call sites) is accepted but never read. -/
def simulate_mof_performance (mof_properties : MOFPropsInput)
    (humidity_range : List ℚ) (temperature_K : ℚ) : IsothermResult :=
  let surface_area := mof_properties.surface_area_m2g.getD 1000
  let _pore_volume := mof_properties.pore_volume_cm3g.getD (1/2)
  let hydrophilicity := mof_properties.hydrophilicity.getD (1/2)
  let max_uptake := mof_properties.max_water_uptake.getD (3/10)
  let q_max := max_uptake * (1 + 3/10 * hydrophilicity)
  let K := 5 * hydrophilicity * (surface_area / 1000)
  let water_uptake := humidity_range.map (fun p => langmuir_isotherm p q_max K)
  let cycles_per_day : ℚ := 4
  let daily_yield := listMean water_uptake * cycles_per_day
  ⟨humidity_range, water_uptake, daily_yield, q_max, K, "langmuir"⟩

/-- Altitude performance bands of `HighAltitudeOptimizer`. -/
inductive AltitudeBand
  | sea_level
  | low_altitude
  | mid_altitude
  | high_altitude
deriving DecidableEq

/-- `HighAltitudeOptimizer._categorize_altitude`. -/
def categorize_altitude (altitude_m : ℚ) : AltitudeBand :=
  if altitude_m < 500 then .sea_level
  else if altitude_m < 1500 then .low_altitude
  else if altitude_m < 3000 then .mid_altitude
  else .high_altitude

/-- One row of the static `altitude_conditions` table. -/
structure Conditions where
  pressure_atm : ℚ
  temp_K : ℚ
  humidity_avg : ℚ
deriving DecidableEq

/-- The static `HighAltitudeOptimizer.altitude_conditions` lookup table. -/
def altitude_conditions : AltitudeBand → Conditions
  | .sea_level => ⟨1, 298, 3/5⟩
  | .low_altitude => ⟨19/20, 295, 1/2⟩
  | .mid_altitude => ⟨17/20, 288, 2/5⟩
  | .high_altitude => ⟨7/10, 280, 3/10⟩

/-- IEEE double extended with positive infinity, the value space of the
performance score (the only non-finite value the pipeline can produce is
+inf, from `1 / (cost_per_kg / 50)` at `cost_per_kg = 0`). -/
inductive Flt
  | fin : ℚ → Flt
  | pinf : Flt
deriving DecidableEq

/-- Float addition restricted to the values occurring here: finite plus
finite is finite, anything involving +inf is +inf. -/
def Flt.add : Flt → Flt → Flt
  | .fin a, .fin b => .fin (a + b)
  | _, _ => .pinf

/-- Float multiplication by a positive literal weight (0.2 in the score):
positive times +inf is +inf. -/
def Flt.smulPos (c : ℚ) : Flt → Flt
  | .fin a => .fin (c * a)
  | .pinf => .pinf

/-- Comparison on scores, as floats compare: +inf is the top element. -/
def Flt.ble : Flt → Flt → Bool
  | .fin a, .fin b => decide (a ≤ b)
  | .fin _, .pinf => true
  | .pinf, .fin _ => false
  | .pinf, .pinf => true

/-- Strict order on scores. -/
def Flt.lt (a b : Flt) : Prop := Flt.ble b a = false

/-- IEEE float division as it occurs in the cost factor: the numerator is the
positive literal 1, so a zero denominator yields +inf (numpy/pandas raise no
exception; the script suppresses warnings). -/
def fdiv (a b : ℚ) : Flt :=
  if b = 0 then .pinf else .fin (a / b)

/-- Clipping to an interval, `np.clip(x, lo, hi) = min(max(x, lo), hi)`. -/
def rclip (x lo hi : ℚ) : ℚ := min (max x lo) hi

/-- One row of the `mof_df` DataFrame: the six property columns the
optimizer reads. -/
structure Material where
  surface_area_m2g : ℚ
  pore_volume_cm3g : ℚ
  hydrophilicity : ℚ
  max_water_uptake : ℚ
  thermal_stability_K : ℚ
  cost_per_kg : ℚ
deriving DecidableEq

/-- A `mof_df` row after `optimize_for_location` has added the
`performance_score` and `estimated_daily_yield` columns. -/
structure RankedMaterial where
  material : Material
  performance_score : Flt
  estimated_daily_yield : ℚ
deriving DecidableEq

/-- The per-row body of `optimize_for_location`: the four factors, the
weighted score `0.3*humidity + 0.25*temp + 0.25*capacity + 0.2*cost`, and the
`estimated_daily_yield = max_water_uptake * humidity_avg * 4` column. -/
def annotate (conditions : Conditions) (m : Material) : RankedMaterial :=
  let humidity_factor := m.hydrophilicity / conditions.humidity_avg
  let temp_factor := rclip (m.thermal_stability_K / conditions.temp_K) (4/5) (6/5)
  let capacity_factor := (m.surface_area_m2g / 1000) * m.pore_volume_cm3g
  let cost_factor := fdiv 1 (m.cost_per_kg / 50)
  let score := Flt.add
    (.fin (3/10 * humidity_factor + 1/4 * temp_factor + 1/4 * capacity_factor))
    (Flt.smulPos (1/5) cost_factor)
  ⟨m, score, m.max_water_uptake * conditions.humidity_avg * 4⟩

/-- Insertion step, ascending by score: `a` is placed before the first
element whose score is not below `a`'s.  The insertion sort built from it is
one concrete realization of numpy's argsort; the source's default
`kind='quicksort'` pins down the non-decreasing score order but leaves the
relative order of equal scores implementation-defined (it coincides with
insertion sort only on small arrays), so theorems below rely only on
consequences independent of tie order (the sorted multiset of rows, and
single-row inputs). -/
def insertAsc (a : RankedMaterial) : List RankedMaterial → List RankedMaterial
  | [] => [a]
  | b :: bs =>
    if Flt.ble a.performance_score b.performance_score then a :: b :: bs
    else b :: insertAsc a bs

/-- Ascending sort by score (insertion sort). -/
def sortAscByScore : List RankedMaterial → List RankedMaterial
  | [] => []
  | a :: rest => insertAsc a (sortAscByScore rest)

/-- `DataFrame.sort_values(by, ascending=False)` for a single key: pandas
`nargsort` reverses the rows, argsorts ascending, and reverses the resulting
indexer again.  With the default `kind='quicksort'` the tie order of the
underlying argsort is implementation-defined, so of this function only the
row multiset and the descending score order are faithful to the source for
every input size; no theorem below about multi-row inputs depends on where
equal-score rows land. -/
def sort_values_desc (rows : List RankedMaterial) : List RankedMaterial :=
  (sortAscByScore rows.reverse).reverse

/-- The conditions row selected by `optimize_for_location` from
`location_data.get('altitude_m', 0)`. -/
def location_conditions (altitude_m : Option ℚ) : Conditions :=
  altitude_conditions (categorize_altitude (altitude_m.getD 0))

/-- `HighAltitudeOptimizer.optimize_for_location`: annotate every row with
the score and yield columns, then sort by score descending. -/
def optimize_for_location (mof_df : List Material) (altitude_m : Option ℚ) :
    List RankedMaterial :=
  sort_values_desc (mof_df.map (annotate (location_conditions altitude_m)))

/-- Replace a material's hydrophilicity, keeping every other field. -/
def setHydrophilicity (m : Material) (h : ℚ) : Material :=
  ⟨m.surface_area_m2g, m.pore_volume_cm3g, h, m.max_water_uptake,
    m.thermal_stability_K, m.cost_per_kg⟩

/-- Claim C4: `categorize_altitude` returns `sea_level` below 500 m,
`low_altitude` on [500, 1500), `mid_altitude` on [1500, 3000) and
`high_altitude` from 3000 m on; in particular at 499, 500, 1499 and 3000 m it
returns `sea_level`, `low_altitude`, `low_altitude` and `high_altitude`. -/
theorem categorize_altitude_bands (a : ℚ) :
    (a < 500 → categorize_altitude a = .sea_level) ∧
    (500 ≤ a → a < 1500 → categorize_altitude a = .low_altitude) ∧
    (1500 ≤ a → a < 3000 → categorize_altitude a = .mid_altitude) ∧
    (3000 ≤ a → categorize_altitude a = .high_altitude) ∧
    categorize_altitude 499 = .sea_level ∧
    categorize_altitude 500 = .low_altitude ∧
    categorize_altitude 1499 = .low_altitude ∧
    categorize_altitude 3000 = .high_altitude := by
  refine ⟨?_, ?_, ?_, ?_, by decide, by decide, by decide, by decide⟩ <;>
    · intros
      unfold categorize_altitude
      split_ifs <;> first | rfl | linarith

/-- Witness for C4 at concrete altitudes in each band. -/
theorem categorize_altitude_bands_witness :
    categorize_altitude 250 = .sea_level ∧ categorize_altitude 2000 = .mid_altitude :=
  ⟨(categorize_altitude_bands 250).1 (by norm_num),
    (categorize_altitude_bands 2000).2.2.1 (by norm_num) (by norm_num)⟩

/-- Claim C9: `simulate_mof_performance` never reads its `temperature_K`
argument: two calls differing only in the temperature return identical
results. -/
theorem simulate_temperature_independent (props : MOFPropsInput)
    (hum : List ℚ) (t1 t2 : ℚ) :
    simulate_mof_performance props hum t1 = simulate_mof_performance props hum t2 :=
  rfl

/-- Claim C10: a missing `surface_area_m2g`, `pore_volume_cm3g`,
`hydrophilicity` or `max_water_uptake` key is silently replaced by the fixed
defaults 1000, 0.5, 0.5 and 0.3, and the simulation proceeds with those
values: any input behaves exactly like the fully-defaulted input. -/
theorem simulate_missing_fields_defaulted (s p h m : Option ℚ)
    (hum : List ℚ) (t : ℚ) :
    simulate_mof_performance ⟨s, p, h, m⟩ hum t =
      simulate_mof_performance
        ⟨some (s.getD 1000), some (p.getD (1/2)),
          some (h.getD (1/2)), some (m.getD (3/10))⟩ hum t :=
  rfl

/-- Claim C2: with the three driving fields present, the simulation returns
exactly `q_max = max_water_uptake * (1 + 0.3 * hydrophilicity)`,
`K = 5.0 * hydrophilicity * (surface_area_m2g / 1000)`, the Langmuir uptake
curve over the humidity range, `daily_yield = mean(uptake) * 4`, and the
model name "langmuir". -/
theorem simulate_mof_performance_fields (sa h mu : ℚ) (pv : Option ℚ)
    (hum : List ℚ) (t : ℚ) :
    (simulate_mof_performance ⟨some sa, pv, some h, some mu⟩ hum t).q_max
        = mu * (1 + 3/10 * h) ∧
    (simulate_mof_performance ⟨some sa, pv, some h, some mu⟩ hum t).K
        = 5 * h * (sa / 1000) ∧
    (simulate_mof_performance ⟨some sa, pv, some h, some mu⟩ hum t).water_uptake
        = hum.map (fun p => langmuir_isotherm p (mu * (1 + 3/10 * h)) (5 * h * (sa / 1000))) ∧
    (simulate_mof_performance ⟨some sa, pv, some h, some mu⟩ hum t).daily_yield_L_kg_day
        = listMean (hum.map (fun p =>
            langmuir_isotherm p (mu * (1 + 3/10 * h)) (5 * h * (sa / 1000)))) * 4 ∧
    (simulate_mof_performance ⟨some sa, pv, some h, some mu⟩ hum t).model = "langmuir" :=
  ⟨rfl, rfl, rfl, rfl, rfl⟩

theorem langmuir_denom_pos {K P : ℚ} (hK : 0 ≤ K) (hP : 0 ≤ P) :
    (0 : ℚ) < 1 + K * P := by nlinarith

theorem langmuir_mono_core {q_max K P1 P2 : ℚ} (hq : 0 ≤ q_max) (hK : 0 ≤ K)
    (h1 : 0 ≤ P1) (h12 : P1 ≤ P2) :
    langmuir_isotherm P1 q_max K ≤ langmuir_isotherm P2 q_max K := by
  have h2 : 0 ≤ P2 := le_trans h1 h12
  have hd1 := langmuir_denom_pos hK h1
  have hd2 := langmuir_denom_pos hK h2
  unfold langmuir_isotherm
  rw [div_le_div_iff₀ hd1 hd2]
  nlinarith [mul_nonneg (mul_nonneg hq hK) (sub_nonneg.mpr h12)]

theorem langmuir_le_qmax {q_max K P : ℚ} (hq : 0 ≤ q_max) (hK : 0 ≤ K)
    (hP : 0 ≤ P) : langmuir_isotherm P q_max K ≤ q_max := by
  have hd := langmuir_denom_pos hK hP
  unfold langmuir_isotherm
  rw [div_le_iff₀ hd]
  nlinarith [mul_nonneg hq (mul_nonneg hK hP)]

theorem langmuir_chain (q_max K : ℚ) (hq : 0 ≤ q_max) (hK : 0 ≤ K) :
    ∀ l : List ℚ, (∀ p ∈ l, 0 ≤ p) → l.Chain' (· ≤ ·) →
      (l.map (fun p => langmuir_isotherm p q_max K)).Chain' (· ≤ ·) := by
  intro l
  induction l with
  | nil => intro _ _; simp
  | cons a t ih =>
    intro hmem hch
    cases t with
    | nil => simp
    | cons b t2 =>
      rw [List.chain'_cons] at hch
      rw [List.map_cons, List.map_cons, List.chain'_cons]
      constructor
      · exact langmuir_mono_core hq hK (hmem a (by simp)) hch.1
      · exact ih (fun p hp => hmem p (List.mem_cons_of_mem a hp)) hch.2

/-- Claim C3: for `q_max, K ≥ 0` the Langmuir isotherm vanishes at 0, is
non-decreasing on the non-negative axis and is bounded by `q_max`; hence the
uptake sequence of an `IsothermResult` (which is the Langmuir map of the
humidity sequence) is monotonically non-decreasing along an increasing
humidity sequence. -/
theorem langmuir_monotone_bounded (q_max K : ℚ) (hq : 0 ≤ q_max) (hK : 0 ≤ K) :
    langmuir_isotherm 0 q_max K = 0 ∧
    (∀ P1 P2, 0 ≤ P1 → P1 ≤ P2 →
      langmuir_isotherm P1 q_max K ≤ langmuir_isotherm P2 q_max K) ∧
    (∀ P, 0 ≤ P → langmuir_isotherm P q_max K ≤ q_max) ∧
    (∀ hum : List ℚ, (∀ p ∈ hum, 0 ≤ p) → hum.Chain' (· ≤ ·) →
      (hum.map (fun p => langmuir_isotherm p q_max K)).Chain' (· ≤ ·)) ∧
    (∀ (props : MOFPropsInput) (hum : List ℚ) (t : ℚ),
      (simulate_mof_performance props hum t).water_uptake
        = hum.map (fun p => langmuir_isotherm p
            (simulate_mof_performance props hum t).q_max
            (simulate_mof_performance props hum t).K)) := by
  refine ⟨by simp [langmuir_isotherm], ?_, ?_, ?_, fun _ _ _ => rfl⟩
  · intro P1 P2 h1 h12
    exact langmuir_mono_core hq hK h1 h12
  · intro P hP
    exact langmuir_le_qmax hq hK hP
  · exact langmuir_chain q_max K hq hK

/-- Witness for C3 at `q_max = 1`, `K = 2` and concrete humidities. -/
theorem langmuir_monotone_bounded_witness :
    langmuir_isotherm 0 1 2 = 0 ∧
    langmuir_isotherm (1/2) 1 2 ≤ langmuir_isotherm (3/4) 1 2 ∧
    langmuir_isotherm (1/2) 1 2 ≤ 1 :=
  ⟨(langmuir_monotone_bounded 1 2 (by norm_num) (by norm_num)).1,
    (langmuir_monotone_bounded 1 2 (by norm_num) (by norm_num)).2.1
      (1/2) (3/4) (by norm_num) (by norm_num),
    (langmuir_monotone_bounded 1 2 (by norm_num) (by norm_num)).2.2.1
      (1/2) (by norm_num)⟩

/-- Claim C7: the Freundlich isotherm fails when its exponent parameter `n`
is zero and the Toth isotherm fails when `t` is zero (the Python scalar
`1/n` and `1/t` raise before the power is taken); for every `n ≠ 0` the
Freundlich isotherm returns `K_f * P^(1/n)` without error on `P ≥ 0`. -/
theorem freundlich_toth_zero_exponent (P K_f q_max b : ℝ) :
    freundlich_isotherm P K_f 0 = none ∧
    toth_isotherm P q_max b 0 = none ∧
    (∀ n : ℝ, n ≠ 0 → 0 ≤ P →
      freundlich_isotherm P K_f n = some (K_f * P ^ (1 / n))) := by
  refine ⟨by simp [freundlich_isotherm], by simp [toth_isotherm], ?_⟩
  intro n hn _
  simp [freundlich_isotherm, hn]

/-- Witness for C7 at `P = 1`, `K_f = 2`, `n = 2`. -/
theorem freundlich_toth_zero_exponent_witness :
    freundlich_isotherm 1 2 2 = some (2 * (1 : ℝ) ^ ((1 : ℝ) / 2)) :=
  (freundlich_toth_zero_exponent 1 2 0 0).2.2 2 (by norm_num) (by norm_num)

theorem insertAsc_perm (a : RankedMaterial) (l : List RankedMaterial) :
    (insertAsc a l).Perm (a :: l) := by
  induction l with
  | nil => exact List.Perm.refl _
  | cons b bs ih =>
    by_cases hab : Flt.ble a.performance_score b.performance_score = true
    · simp [insertAsc, hab]
    · simp only [insertAsc, if_neg hab]
      exact (ih.cons b).trans (List.Perm.swap a b bs)

theorem sortAscByScore_perm (l : List RankedMaterial) :
    (sortAscByScore l).Perm l := by
  induction l with
  | nil => exact List.Perm.refl _
  | cons a rest ih => exact (insertAsc_perm a (sortAscByScore rest)).trans (ih.cons a)

theorem sort_values_desc_perm (rows : List RankedMaterial) :
    (sort_values_desc rows).Perm rows := by
  unfold sort_values_desc
  exact ((sortAscByScore rows.reverse).reverse_perm.trans
    (sortAscByScore_perm rows.reverse)).trans rows.reverse_perm

/-- Claim C1: every row returned by `optimize_for_location` carries
`performance_score = 0.3*humidityFactor + 0.25*tempFactor + 0.25*capacityFactor
+ 0.2*costFactor` (factors taken from the band of the location's altitude) and
`estimated_daily_yield = max_water_uptake * humidity_avg * 4`; the end-to-end
example material at altitude 1200 m scores exactly 37/40 = 0.925. -/
theorem optimize_for_location_formula (mats : List Material) (alt : Option ℚ) :
    (∀ r ∈ optimize_for_location mats alt,
      (r.material.cost_per_kg ≠ 0 →
        r.performance_score = Flt.fin (
          3/10 * (r.material.hydrophilicity / (location_conditions alt).humidity_avg)
          + 1/4 * rclip (r.material.thermal_stability_K / (location_conditions alt).temp_K)
              (4/5) (6/5)
          + 1/4 * ((r.material.surface_area_m2g / 1000) * r.material.pore_volume_cm3g)
          + 1/5 * (1 / (r.material.cost_per_kg / 50)))) ∧
      r.estimated_daily_yield
        = r.material.max_water_uptake * (location_conditions alt).humidity_avg * 4) ∧
    (optimize_for_location [⟨1000, 1/2, 1/2, 3/10, 600, 50⟩] (some 1200)).map
        RankedMaterial.performance_score = [Flt.fin (37/40)] ∧
    (37/40 : ℚ) = 925/1000 := by
  refine ⟨?_, ?_, by norm_num⟩
  · intro r hr
    have hmem : r ∈ mats.map (annotate (location_conditions alt)) :=
      (sort_values_desc_perm _).mem_iff.mp hr
    rcases List.mem_map.mp hmem with ⟨m, _, rfl⟩
    have hmat : (annotate (location_conditions alt) m).material = m := rfl
    rw [hmat]
    constructor
    · intro hcost
      have h50 : m.cost_per_kg / 50 ≠ 0 := div_ne_zero hcost (by norm_num)
      show Flt.add _ _ = _
      rw [show fdiv 1 (m.cost_per_kg / 50) = Flt.fin (1 / (m.cost_per_kg / 50)) from
        if_neg h50]
      rfl
    · rfl
  · show List.map RankedMaterial.performance_score
        [annotate (location_conditions (some 1200)) ⟨1000, 1/2, 1/2, 3/10, 600, 50⟩]
      = [Flt.fin (37/40)]
    rw [List.map_cons, List.map_nil]
    norm_num [annotate, location_conditions, categorize_altitude, altitude_conditions,
      rclip, fdiv, Flt.add, Flt.smulPos, min_def, max_def]

/-- Witness for C1: the end-to-end example row is in the output, its cost is
nonzero, and its score equals the four-factor weighted sum. -/
theorem optimize_for_location_formula_witness :
    (annotate (location_conditions (some 1200))
        ⟨1000, 1/2, 1/2, 3/10, 600, 50⟩).performance_score
      = Flt.fin (
          3/10 * ((1/2) / (location_conditions (some 1200)).humidity_avg)
          + 1/4 * rclip (600 / (location_conditions (some 1200)).temp_K) (4/5) (6/5)
          + 1/4 * ((1000 / 1000) * (1/2))
          + 1/5 * (1 / ((50 : ℚ) / 50))) :=
  ((optimize_for_location_formula [⟨1000, 1/2, 1/2, 3/10, 600, 50⟩] (some 1200)).1
    (annotate (location_conditions (some 1200)) ⟨1000, 1/2, 1/2, 3/10, 600, 50⟩)
    (List.mem_singleton_self _)).1 (show (50 : ℚ) ≠ 0 by norm_num)

/-- Claim C6 evaluated on the code: with `cost_per_kg = 0` the pipeline does
not raise any error; pandas float division produces `costFactor = +inf` and
the returned ranking contains that material with an infinite
`performance_score`. -/
theorem cost_zero_infinite_score_in_ranking :
    ∃ r ∈ optimize_for_location [⟨1000, 1/2, 1/2, 3/10, 600, 0⟩] (some 0),
      r.material = ⟨1000, 1/2, 1/2, 3/10, 600, 0⟩ ∧
        r.performance_score = Flt.pinf := by
  refine ⟨annotate (location_conditions (some 0)) ⟨1000, 1/2, 1/2, 3/10, 600, 0⟩,
    List.mem_singleton_self _, rfl, ?_⟩
  norm_num [annotate, location_conditions, categorize_altitude, altitude_conditions,
    rclip, fdiv, Flt.add, Flt.smulPos, min_def, max_def]

/-- Claim C8: with the location fixed and every other field held fixed,
a strictly larger hydrophilicity yields a strictly larger performance score
(band humidity average positive, well-formed positive cost). -/
theorem performance_score_strictmono_hydrophilicity (alt : Option ℚ)
    (m : Material) (h1 h2 : ℚ) (hlt : h1 < h2) (hcost : 0 < m.cost_per_kg)
    (hhum : 0 < (location_conditions alt).humidity_avg)
    (r1 r2 : RankedMaterial)
    (e1 : optimize_for_location [setHydrophilicity m h1] alt = [r1])
    (e2 : optimize_for_location [setHydrophilicity m h2] alt = [r2]) :
    Flt.lt r1.performance_score r2.performance_score := by
  have hr1 : r1 = annotate (location_conditions alt) (setHydrophilicity m h1) := by
    have e1' : [annotate (location_conditions alt) (setHydrophilicity m h1)] = [r1] := e1
    exact (List.cons_eq_cons.mp e1').1.symm
  have hr2 : r2 = annotate (location_conditions alt) (setHydrophilicity m h2) := by
    have e2' : [annotate (location_conditions alt) (setHydrophilicity m h2)] = [r2] := e2
    exact (List.cons_eq_cons.mp e2').1.symm
  subst hr1 hr2
  have h50 : m.cost_per_kg / 50 ≠ 0 := ne_of_gt (div_pos hcost (by norm_num))
  show Flt.lt (Flt.add _ (Flt.smulPos (1/5) (fdiv 1 (m.cost_per_kg / 50))))
    (Flt.add _ (Flt.smulPos (1/5) (fdiv 1 (m.cost_per_kg / 50))))
  rw [show fdiv 1 (m.cost_per_kg / 50) = Flt.fin (1 / (m.cost_per_kg / 50)) from
    if_neg h50]
  show Flt.lt (Flt.fin _) (Flt.fin _)
  simp only [Flt.lt, Flt.ble, decide_eq_false_iff_not, not_le]
  have hdiv : h1 / (location_conditions alt).humidity_avg
      < h2 / (location_conditions alt).humidity_avg :=
    (div_lt_div_iff_of_pos_right hhum).mpr hlt
  have hfix : (setHydrophilicity m h1).thermal_stability_K
      = (setHydrophilicity m h2).thermal_stability_K := rfl
  simp only [setHydrophilicity]
  linarith

/-- Witness for C8 on the example material at sea level, hydrophilicity
raised from 1/4 to 1/2. -/
theorem performance_score_strictmono_hydrophilicity_witness :
    Flt.lt
      (annotate (location_conditions (some 0))
        (setHydrophilicity ⟨1000, 1/2, 1/2, 3/10, 600, 50⟩ (1/4))).performance_score
      (annotate (location_conditions (some 0))
        (setHydrophilicity ⟨1000, 1/2, 1/2, 3/10, 600, 50⟩ (1/2))).performance_score :=
  performance_score_strictmono_hydrophilicity (some 0)
    ⟨1000, 1/2, 1/2, 3/10, 600, 50⟩ (1/4) (1/2) (by norm_num) (by norm_num)
    (by norm_num [location_conditions, categorize_altitude, altitude_conditions])
    _ _ rfl rfl

end MOF
